import Mathlib

/-!
Verification development for the maze-chase game in `src/pacman4k.py`.

The simulation core is embedded shallowly:

* Python ints become `ℤ` (or `ℕ` where the source value is a count that never
  goes negative), Python floats that only ever hold decimal literals and sums
  thereof become `ℚ`, Python lists become `List`.
* Entity positions are embedded as `ℤ`: in the source every entity is created
  at integer coordinates and every write adds `dx`/`dy` which are always
  `-1`, `0` or `1`, so positions stay integral; `int(...)` truncation is then
  the identity.
* Fallible list indexing (Python `IndexError`) is modelled with `Option`.
* `random.shuffle` in the frightened move is modelled by passing the shuffled
  list as an explicit argument, quantified over permutations of the list the
  source shuffles.
-/

namespace Pacman4k

/-! ### Maze grid (source lines 152-179)

Cell codes as used by the source: 0 = empty, 1 = wall, 2 = pellet,
3 = power pellet, 4 = ghost-house door, 5 = fruit spot. -/

def MAZE : List (List ℕ) := [
  [1,1,1,1,1,1,1,1,1,1,1,1,1,1,1,1,1,1,1,1,1,1,1,1,1,1,1,1],
  [1,2,2,2,2,2,2,2,2,2,2,2,2,1,1,2,2,2,2,2,2,2,2,2,2,2,2,1],
  [1,3,1,1,1,1,2,1,1,1,1,1,2,1,1,2,1,1,1,1,1,2,1,1,1,1,3,1],
  [1,2,1,1,1,1,2,1,1,1,1,1,2,1,1,2,1,1,1,1,1,2,1,1,1,1,2,1],
  [1,2,2,2,2,2,2,2,2,2,2,2,2,2,2,2,2,2,2,2,2,2,2,2,2,2,2,1],
  [1,2,1,1,1,1,2,1,1,2,1,1,1,1,1,1,1,1,2,1,1,2,1,1,1,1,2,1],
  [1,2,2,2,2,2,2,1,1,2,2,2,2,1,1,2,2,2,2,1,1,2,2,2,2,2,2,1],
  [1,1,1,1,1,1,2,1,1,1,1,1,0,1,1,0,1,1,1,1,1,2,1,1,1,1,1,1],
  [0,0,0,0,0,1,2,1,1,1,1,1,0,1,1,0,1,1,1,1,1,2,1,0,0,0,0,0],
  [0,0,0,0,0,1,2,1,1,0,0,0,0,0,0,0,0,0,0,1,1,2,1,0,0,0,0,0],
  [0,0,0,0,0,1,2,1,1,0,1,1,1,4,4,1,1,1,0,1,1,2,1,0,0,0,0,0],
  [1,1,1,1,1,1,2,1,1,0,1,0,0,0,0,0,0,1,0,1,1,2,1,1,1,1,1,1],
  [0,0,0,0,0,0,2,0,0,0,1,0,0,0,0,0,0,1,0,0,0,2,0,0,0,0,0,0],
  [1,1,1,1,1,1,2,1,1,0,1,0,0,0,0,0,0,1,0,1,1,2,1,1,1,1,1,1],
  [0,0,0,0,0,1,2,1,1,0,1,1,1,1,1,1,1,1,0,1,1,2,1,0,0,0,0,0],
  [0,0,0,0,0,1,2,1,1,0,0,0,0,5,5,0,0,0,0,1,1,2,1,0,0,0,0,0],
  [0,0,0,0,0,1,2,1,1,0,1,1,1,1,1,1,1,1,0,1,1,2,1,0,0,0,0,0],
  [1,1,1,1,1,1,2,1,1,0,1,1,1,1,1,1,1,1,0,1,1,2,1,1,1,1,1,1],
  [1,2,2,2,2,2,2,2,2,2,2,2,2,1,1,2,2,2,2,2,2,2,2,2,2,2,2,1],
  [1,2,1,1,1,1,2,1,1,1,1,1,2,1,1,2,1,1,1,1,1,2,1,1,1,1,2,1],
  [1,3,2,2,1,1,2,2,2,2,2,2,2,0,0,2,2,2,2,2,2,2,1,1,2,2,3,1],
  [1,1,1,2,1,1,2,1,1,2,1,1,1,1,1,1,1,1,2,1,1,2,1,1,2,1,1,1],
  [1,2,2,2,2,2,2,1,1,2,2,2,2,1,1,2,2,2,2,1,1,2,2,2,2,2,2,1],
  [1,2,1,1,1,1,1,1,1,1,1,1,2,1,1,2,1,1,1,1,1,1,1,1,1,1,2,1],
  [1,2,2,2,2,2,2,2,2,2,2,2,2,2,2,2,2,2,2,2,2,2,2,2,2,2,2,1],
  [1,1,1,1,1,1,1,1,1,1,1,1,1,1,1,1,1,1,1,1,1,1,1,1,1,1,1,1]]

/-- The cell read `maze[int(y)][int(x)]`; only ever evaluated by the source
after its bounds check, so the out-of-range default is irrelevant there. -/
def cell_at (maze : List (List ℕ)) (x y : ℤ) : ℕ :=
  (maze.getD y.toNat []).getD x.toNat 1

/-- `Ghost.can_move` (source lines 416-420) and `PacMan.can_move`
(lines 515-518); the two method bodies are identical. -/
def can_move (x y : ℤ) (maze : List (List ℕ)) : Bool :=
  if x < 0 ∨ ((maze.headD []).length : ℤ) ≤ x ∨ y < 0 ∨ (maze.length : ℤ) ≤ y then
    false
  else
    decide (cell_at maze x y ≠ 1)

/-! ### Movement controller (source lines 283-304 and 486-509)

`PacMan.update` and `Ghost.update` share the accumulator loop: add the speed
to `move_accumulator`, then `while move_accumulator >= 1.0` subtract `1.0`
and attempt one discrete grid step. `while_drain acc` is the number of
iterations that loop performs starting from accumulator value `acc`. -/

def while_drain (acc : ℚ) : ℕ :=
  if h : 1 ≤ acc then while_drain (acc - 1) + 1 else 0
termination_by (⌈acc⌉).toNat
decreasing_by
  have h1 : (1 : ℤ) ≤ ⌈acc⌉ := by
    exact_mod_cast Int.le_ceil_iff.mpr (by norm_num; linarith)
  have h2 : ⌈acc - 1⌉ = ⌈acc⌉ - 1 := by
    simpa using Int.ceil_sub_int acc 1
  omega

/-- One tick of the shared accumulator loop at constant speed `s`: the number
of discrete grid steps attempted this tick and the new accumulator value. -/
def tick_acc (s acc : ℚ) : ℕ × ℚ :=
  let a := acc + s
  (while_drain a, a - while_drain a)

/-- `n` consecutive ticks at constant speed `s` starting from a zero
accumulator: total steps attempted and final accumulator. -/
def run_acc (s : ℚ) : ℕ → ℕ × ℚ
  | 0 => (0, 0)
  | n + 1 =>
    let p := run_acc s n
    let q := tick_acc s p.2
    (p.1 + q.1, q.2)

lemma while_drain_of_lt_one {acc : ℚ} (h : acc < 1) : while_drain acc = 0 := by
  rw [while_drain]
  simp [not_le.mpr h]

lemma while_drain_of_one_le {acc : ℚ} (h : 1 ≤ acc) :
    while_drain acc = while_drain (acc - 1) + 1 := by
  rw [while_drain]
  simp [h]

lemma while_drain_eq_floor :
    ∀ (n : ℕ) (acc : ℚ), 0 ≤ acc → ⌊acc⌋.toNat = n → while_drain acc = n := by
  intro n
  induction n with
  | zero =>
    intro acc h0 hfl
    have hlt : acc < 1 := by
      by_contra hge
      have : (1 : ℤ) ≤ ⌊acc⌋ := by
        exact_mod_cast Int.le_floor.mpr (by push_cast; linarith)
      omega
    exact while_drain_of_lt_one hlt
  | succ k ih =>
    intro acc h0 hfl
    have hfl1 : (1 : ℤ) ≤ ⌊acc⌋ := by omega
    have hge : (1 : ℚ) ≤ acc := by
      have := Int.floor_le acc
      calc (1 : ℚ) ≤ (⌊acc⌋ : ℚ) := by exact_mod_cast hfl1
        _ ≤ acc := this
    rw [while_drain_of_one_le hge]
    have hsub : ⌊acc - 1⌋ = ⌊acc⌋ - 1 := by
      simpa using Int.floor_sub_int acc 1
    have : while_drain (acc - 1) = k := by
      apply ih
      · linarith
      · omega
    omega

lemma while_drain_eq (acc : ℚ) (h0 : 0 ≤ acc) : while_drain acc = ⌊acc⌋.toNat :=
  while_drain_eq_floor ⌊acc⌋.toNat acc h0 rfl

lemma run_acc_invariant (s : ℚ) (hs : 0 ≤ s) :
    ∀ n : ℕ, ((run_acc s n).1 : ℤ) = ⌊s * n⌋ ∧
      (run_acc s n).2 = s * n - ⌊s * n⌋ ∧
      0 ≤ (run_acc s n).2 ∧ (run_acc s n).2 < 1 := by
  intro n
  induction n with
  | zero => simp [run_acc]
  | succ k ih =>
    obtain ⟨hsteps, hacc, hlo, hhi⟩ := ih
    have ha' : (0 : ℚ) ≤ (run_acc s k).2 + s := by linarith
    have hdrain : while_drain ((run_acc s k).2 + s) = (⌊(run_acc s k).2 + s⌋).toNat :=
      while_drain_eq _ ha'
    have hfl0 : (0 : ℤ) ≤ ⌊(run_acc s k).2 + s⌋ := Int.floor_nonneg.mpr ha'
    have hrewrite : (run_acc s k).2 + s = s * (k + 1) - ⌊s * k⌋ := by
      rw [hacc]; push_cast; ring
    have hflsub : ⌊(run_acc s k).2 + s⌋ = ⌊s * (k + 1)⌋ - ⌊s * k⌋ := by
      rw [hrewrite]
      have := Int.floor_sub_int (s * (k + 1)) ⌊s * (k : ℚ)⌋
      simpa using this
    constructor
    · show (((run_acc s k).1 + (tick_acc s (run_acc s k).2).1 : ℕ) : ℤ) = ⌊s * (k + 1 : ℕ)⌋
      have : ((tick_acc s (run_acc s k).2).1 : ℤ) = ⌊s * (k + 1)⌋ - ⌊s * k⌋ := by
        show ((while_drain ((run_acc s k).2 + s) : ℕ) : ℤ) = _
        rw [hdrain, Int.toNat_of_nonneg hfl0, hflsub]
      push_cast [this, hsteps]
      push_cast at hsteps ⊢
      linarith [hsteps]
    · have hacc' : (tick_acc s (run_acc s k).2).2 =
          ((run_acc s k).2 + s) - ⌊(run_acc s k).2 + s⌋ := by
        show ((run_acc s k).2 + s) - (while_drain ((run_acc s k).2 + s) : ℚ) = _
        rw [hdrain]
        congr 1
        exact_mod_cast congrArg (fun z : ℤ => (z : ℚ)) (Int.toNat_of_nonneg hfl0)
      refine ⟨?_, ?_, ?_⟩
      · show (tick_acc s (run_acc s k).2).2 = s * (k + 1 : ℕ) - ⌊s * (k + 1 : ℕ)⌋
        rw [hacc', hflsub, hrewrite]
        push_cast
        ring
      · show 0 ≤ (tick_acc s (run_acc s k).2).2
        rw [hacc']
        have := Int.floor_le ((run_acc s k).2 + s)
        linarith
      · show (tick_acc s (run_acc s k).2).2 < 1
        rw [hacc']
        have := Int.lt_floor_add_one ((run_acc s k).2 + s)
        linarith

/-- Claim C2: for an entity updated with the shared accumulator loop at a
constant speed `0 ≤ s < 1` over `n` consecutive ticks starting from a zero
accumulator, the total number of discrete grid steps attempted equals
`⌊s * n⌋`, independent of how `s` is fragmented across the ticks. -/
theorem c2_accumulator_steps (s : ℚ) (n : ℕ) (hs : 0 ≤ s) (hs1 : s < 1) :
    (run_acc s n).1 = (⌊s * n⌋).toNat := by
  have h := (run_acc_invariant s hs n).1
  omega

/-- Witness for C2 at the level-1 player speed 0.15 over 40 ticks. -/
theorem c2_accumulator_steps_witness :
    ((0 : ℚ) ≤ 15/100 ∧ (15/100 : ℚ) < 1) ∧
      (run_acc (15/100) 40).1 = (⌊(15/100 : ℚ) * (40 : ℕ)⌋).toNat :=
  ⟨⟨by norm_num, by norm_num⟩,
    c2_accumulator_steps (15/100) 40 (by norm_num) (by norm_num)⟩

/-! ### Adversary targeting engine (source lines 246-420) -/

/-- The four personality strings of the source, as a closed enumeration. -/
inductive Personality where
  | chaser
  | ambusher
  | fickle
  | pokey
deriving DecidableEq

/-- Player state relevant to movement and targeting (`PacMan`, lines 468-518). -/
structure PacSt where
  x : ℤ
  y : ℤ
  dx : ℤ
  dy : ℤ
deriving DecidableEq

/-- Adversary state relevant to targeting and collision (`Ghost`, lines 246-264). -/
structure GhostSt where
  x : ℤ
  y : ℤ
  dx : ℤ
  dy : ℤ
  personality : Personality
  frightened : Bool
  eaten : Bool
deriving DecidableEq

/-- The direction enumeration `[(0, -1), (0, 1), (-1, 0), (1, 0)]` used by
every selection loop in the source (lines 309, 325, 338). -/
def dir_list : List (ℤ × ℤ) := [(0, -1), (0, 1), (-1, 0), (1, 0)]

/-- Loop body of the argmin pattern `if dist < min_dist: min_dist = dist;
best_dir = (dx, dy)`; `none` plays the role of the initial
`float('inf')` bound. -/
def sel_step (cost : ℤ × ℤ → ℤ) (acc : (ℤ × ℤ) × Option ℤ) (d : ℤ × ℤ) :
    (ℤ × ℤ) × Option ℤ :=
  match acc.2 with
  | none => (d, some (cost d))
  | some m => if cost d < m then (d, some (cost d)) else acc

/-- The argmin loop shared by every pursuit branch of `Ghost.ai_move`
(lines 350-412): `best_dir = valid_dirs[0]; min_dist = float('inf')`, then
one pass over `valid_dirs` keeping the strict-improvement candidate, so the
first direction in enumeration order wins ties. -/
def select_min (cost : ℤ × ℤ → ℤ) (dirs : List (ℤ × ℤ)) : ℤ × ℤ :=
  (dirs.foldl (sel_step cost) (dirs.headD (0, 0), none)).1

/-- The candidate list of `Ghost.ai_move` (lines 341-345): non-reverse
directions whose destination cell is not a wall. -/
def valid_dirs (g : GhostSt) (maze : List (List ℕ)) : List (ℤ × ℤ) :=
  dir_list.filter fun d =>
    decide (d ≠ (-g.dx, -g.dy)) && can_move (g.x + d.1) (g.y + d.2) maze

/-- The fickle ("Inky") target computation of `Ghost.ai_move`
(lines 374-380).  Note the source sets `blinky_x, blinky_y = pacman.x,
pacman.y` (its comment says "Simplified"): the reflection pivot point is
reflected through the PLAYER's cell, not through the chaser ghost's cell. -/
def fickle_target (pac : PacSt) : ℤ × ℤ :=
  let blinky_x := pac.x
  let blinky_y := pac.y
  let pivot_x := pac.x + pac.dx * 2
  let pivot_y := pac.y + pac.dy * 2
  (pivot_x + (pivot_x - blinky_x), pivot_y + (pivot_y - blinky_y))

/-- Modelled from the spec: the fickle target as the spec words it, namely the
reflection of the pivot point (the player's cell offset 2 cells ahead along
the player's direction) through the chaser adversary's current cell,
`pivot + (pivot - chaserPosition)`.  Stated only to compare with the
source-derived `fickle_target`. -/
def fickle_target_spec (pac : PacSt) (chaserPos : ℤ × ℤ) : ℤ × ℤ :=
  let pivot_x := pac.x + pac.dx * 2
  let pivot_y := pac.y + pac.dy * 2
  (pivot_x + (pivot_x - chaserPos.1), pivot_y + (pivot_y - chaserPos.2))

/-- `Ghost.ai_move` (source lines 336-414).  Each personality branch runs the
same argmin loop over `valid_dirs` with its own squared-Euclidean cost; the
pokey branch tests `math.sqrt(d2) > 8`, which over our integral positions is
exactly `d2 > 64`. -/
def ai_move (g : GhostSt) (pac : PacSt) (maze : List (List ℕ)) : ℤ × ℤ :=
  let valid := if valid_dirs g maze = [] then [(-g.dx, -g.dy)] else valid_dirs g maze
  match g.personality with
  | .chaser =>
    select_min (fun d => (g.x + d.1 - pac.x) ^ 2 + (g.y + d.2 - pac.y) ^ 2) valid
  | .ambusher =>
    let tx := pac.x + pac.dx * 4
    let ty := pac.y + pac.dy * 4
    select_min (fun d => (g.x + d.1 - tx) ^ 2 + (g.y + d.2 - ty) ^ 2) valid
  | .fickle =>
    let t := fickle_target pac
    select_min (fun d => (g.x + d.1 - t.1) ^ 2 + (g.y + d.2 - t.2) ^ 2) valid
  | .pokey =>
    if (g.x - pac.x) ^ 2 + (g.y - pac.y) ^ 2 > 64 then
      select_min (fun d => (g.x + d.1 - pac.x) ^ 2 + (g.y + d.2 - pac.y) ^ 2) valid
    else
      select_min (fun d => (g.x + d.1 - 0) ^ 2 + (g.y + d.2 - 25) ^ 2) valid

/-- `Ghost.frightened_move` (source lines 323-334).  `shuffled` stands for the
result of `random.shuffle` on the non-reverse direction list; the source then
takes the first entry whose destination is not a wall, and leaves the current
direction unchanged when none qualifies. -/
def frightened_move (g : GhostSt) (maze : List (List ℕ))
    (shuffled : List (ℤ × ℤ)) : ℤ × ℤ :=
  match shuffled.find? (fun d => can_move (g.x + d.1) (g.y + d.2) maze) with
  | some d => d
  | none => (g.dx, g.dy)

lemma sel_foldl_mem (cost : ℤ × ℤ → ℤ) (S : List (ℤ × ℤ)) :
    ∀ (l : List (ℤ × ℤ)) (acc : (ℤ × ℤ) × Option ℤ),
      acc.1 ∈ S → (∀ x ∈ l, x ∈ S) → (l.foldl (sel_step cost) acc).1 ∈ S := by
  intro l
  induction l with
  | nil => intro acc ha _; simpa using ha
  | cons d t ih =>
    intro acc ha hl
    have hd : d ∈ S := hl d (List.mem_cons_self d t)
    have ht : ∀ x ∈ t, x ∈ S := fun x hx => hl x (List.mem_cons_of_mem d hx)
    simp only [List.foldl_cons]
    apply ih
    · unfold sel_step
      cases h2 : acc.2 with
      | none => simpa using hd
      | some m =>
        by_cases hc : cost d < m
        · simp [hc, hd]
        · simpa [hc] using ha
    · exact ht

lemma select_min_mem (cost : ℤ × ℤ → ℤ) (dirs : List (ℤ × ℤ)) (h : dirs ≠ []) :
    select_min cost dirs ∈ dirs := by
  unfold select_min
  apply sel_foldl_mem cost dirs dirs
  · cases dirs with
    | nil => exact absurd rfl h
    | cons a t => simp [List.headD]
  · intro x hx; exact hx

lemma ai_move_mem_valid (g : GhostSt) (pac : PacSt) (maze : List (List ℕ))
    (h : valid_dirs g maze ≠ []) : ai_move g pac maze ∈ valid_dirs g maze := by
  unfold ai_move
  rw [if_neg h]
  cases g.personality with
  | chaser => exact select_min_mem _ _ h
  | ambusher => exact select_min_mem _ _ h
  | fickle => exact select_min_mem _ _ h
  | pokey =>
    by_cases hc : (g.x - pac.x) ^ 2 + (g.y - pac.y) ^ 2 > 64
    · simpa [hc] using select_min_mem
        (fun d => (g.x + d.1 - pac.x) ^ 2 + (g.y + d.2 - pac.y) ^ 2) _ h
    · simpa [hc] using select_min_mem
        (fun d => (g.x + d.1 - 0) ^ 2 + (g.y + d.2 - 25) ^ 2) _ h

/-- Claim C8: a pursuing or frightened adversary never sets its direction to
the exact reverse of its current direction while at least one non-reversing
direction with a non-wall destination exists (in pursuit the reverse is taken
only as the dead-end fallback); the frightened statement holds for every
shuffle of the non-reverse candidate list. -/
theorem c8_no_reverse :
    (∀ (g : GhostSt) (pac : PacSt) (maze : List (List ℕ)),
      (∃ d ∈ dir_list, d ≠ (-g.dx, -g.dy) ∧
        can_move (g.x + d.1) (g.y + d.2) maze = true) →
      ai_move g pac maze ≠ (-g.dx, -g.dy)) ∧
    (∀ (g : GhostSt) (maze : List (List ℕ)) (shuffled : List (ℤ × ℤ)),
      shuffled.Perm (dir_list.filter fun d => decide (d ≠ (-g.dx, -g.dy))) →
      (∃ d ∈ dir_list, d ≠ (-g.dx, -g.dy) ∧
        can_move (g.x + d.1) (g.y + d.2) maze = true) →
      frightened_move g maze shuffled ≠ (-g.dx, -g.dy)) := by
  constructor
  · intro g pac maze ⟨d, hd, hne, hmov⟩
    have hmem : d ∈ valid_dirs g maze := by
      unfold valid_dirs
      rw [List.mem_filter]
      exact ⟨hd, by simp [hne, hmov]⟩
    have hvne : valid_dirs g maze ≠ [] := by
      intro hnil; rw [hnil] at hmem; exact absurd hmem (List.not_mem_nil d)
    have hres := ai_move_mem_valid g pac maze hvne
    unfold valid_dirs at hres
    rw [List.mem_filter] at hres
    intro heq
    have h2 := hres.2
    rw [heq] at h2
    simp at h2
  · intro g maze shuffled hperm ⟨d, hd, hne, hmov⟩
    have hdmem : d ∈ shuffled := by
      rw [hperm.mem_iff, List.mem_filter]
      exact ⟨hd, by simp [hne]⟩
    have hfind : (shuffled.find?
        (fun d => can_move (g.x + d.1) (g.y + d.2) maze)).isSome := by
      rw [List.find?_isSome]
      exact ⟨d, hdmem, hmov⟩
    obtain ⟨r, hr⟩ := Option.isSome_iff_exists.mp hfind
    have hrmem : r ∈ shuffled := List.mem_of_find?_eq_some hr
    have hrne : r ≠ (-g.dx, -g.dy) := by
      have := hperm.mem_iff.mp hrmem
      rw [List.mem_filter] at this
      simpa using this.2
    unfold frightened_move
    rw [hr]
    exact hrne

/-- Witness for C8: the chaser at cell (1, 12) of the real maze heading right
can continue right (a legal non-reversing move), and indeed neither branch
reverses to (-1, 0). -/
theorem c8_no_reverse_witness :
    (∃ d ∈ dir_list, d ≠ (-(1 : ℤ), -(0 : ℤ)) ∧
      can_move ((1 : ℤ) + d.1) ((12 : ℤ) + d.2) MAZE = true) ∧
    ai_move ⟨1, 12, 1, 0, .chaser, false, false⟩ ⟨14, 20, 0, 0⟩ MAZE ≠
      (-(1 : ℤ), -(0 : ℤ)) :=
  ⟨⟨(1, 0), by decide, by decide, by decide⟩,
    c8_no_reverse.1 ⟨1, 12, 1, 0, .chaser, false, false⟩ ⟨14, 20, 0, 0⟩ MAZE
      ⟨(1, 0), by decide, by decide, by decide⟩⟩

/-- Counterexample to claim C4: with the player at (5, 5) heading right and
the chaser ghost at (10, 10), the source's fickle target (which reflects the
pivot through the player's own cell, lines 374-380) is (9, 5), while the
claimed reflection through the chaser's cell is (4, 0). -/
theorem c4_fickle_counterexample :
    fickle_target ⟨5, 5, 1, 0⟩ = (9, 5) ∧
      fickle_target_spec ⟨5, 5, 1, 0⟩ (10, 10) = (4, 0) ∧
      fickle_target ⟨5, 5, 1, 0⟩ ≠ fickle_target_spec ⟨5, 5, 1, 0⟩ (10, 10) := by
  refine ⟨rfl, rfl, ?_⟩
  decide

/-- Claim C4 as amended: the fickle adversary's pursuit target is the
reflection of the pivot point (player's cell offset 2 cells ahead) through
the PLAYER's current cell, i.e. the spec's formula with the chaser position
replaced by the player's own position. -/
theorem c4_fickle_amended (pac : PacSt) :
    fickle_target pac = fickle_target_spec pac (pac.x, pac.y) := rfl

/-! ### Wall-test semantics (claim C10) -/

/-- Claim C10: `can_move` returns false exactly when the coordinate is out of
the grid's bounds or the cell holds the wall code 1; every other cell code
(empty 0, pellet 2, power pellet 3, door 4, fruit spot 5) is passable; any
permitted destination is in bounds, so no entity leaves the grid; and on the
real maze the ghost-house door cells are passable while stepping off the open
tunnel-row edge is rejected. -/
theorem c10_can_move_semantics :
    (∀ (maze : List (List ℕ)) (x y : ℤ),
      can_move x y maze = false ↔
        (x < 0 ∨ ((maze.headD []).length : ℤ) ≤ x ∨ y < 0 ∨
          (maze.length : ℤ) ≤ y ∨ cell_at maze x y = 1)) ∧
    (∀ (maze : List (List ℕ)) (x y : ℤ) (c : ℕ),
      0 ≤ x → x < ((maze.headD []).length : ℤ) → 0 ≤ y → y < (maze.length : ℤ) →
      cell_at maze x y = c → c = 0 ∨ c = 2 ∨ c = 3 ∨ c = 4 ∨ c = 5 →
      can_move x y maze = true) ∧
    (∀ (maze : List (List ℕ)) (x y : ℤ),
      can_move x y maze = true →
      0 ≤ x ∧ x < ((maze.headD []).length : ℤ) ∧ 0 ≤ y ∧ y < (maze.length : ℤ)) ∧
    (cell_at MAZE 13 10 = 4 ∧ can_move 13 10 MAZE = true ∧
      can_move (-1) 12 MAZE = false ∧ can_move 28 12 MAZE = false) := by
  refine ⟨?_, ?_, ?_, by decide, by decide, by decide, by decide⟩
  · intro maze x y
    unfold can_move
    by_cases hb : x < 0 ∨ ((maze.headD []).length : ℤ) ≤ x ∨ y < 0 ∨
        (maze.length : ℤ) ≤ y
    · simp only [hb, if_true]
      constructor
      · intro _
        rcases hb with h | h | h | h
        · exact Or.inl h
        · exact Or.inr (Or.inl h)
        · exact Or.inr (Or.inr (Or.inl h))
        · exact Or.inr (Or.inr (Or.inr (Or.inl h)))
      · intro _; trivial
    · simp only [hb, if_false]
      push_neg at hb
      obtain ⟨h1, h2, h3, h4⟩ := hb
      constructor
      · intro hdec
        refine Or.inr (Or.inr (Or.inr (Or.inr ?_)))
        by_contra hne
        simp [hne] at hdec
      · intro hcases
        rcases hcases with h | h | h | h | h
        · omega
        · omega
        · omega
        · omega
        · simp [h]
  · intro maze x y c h1 h2 h3 h4 hcell hc
    unfold can_move
    rw [if_neg (by omega)]
    have : cell_at maze x y ≠ 1 := by
      rw [hcell]
      rcases hc with h | h | h | h | h <;> omega
    simp [this]
  · intro maze x y h
    unfold can_move at h
    by_cases hb : x < 0 ∨ ((maze.headD []).length : ℤ) ≤ x ∨ y < 0 ∨
        (maze.length : ℤ) ≤ y
    · rw [if_pos hb] at h; exact absurd h (by simp)
    · push_neg at hb; exact ⟨hb.1, hb.2.1, hb.2.2.1, hb.2.2.2⟩

/-- Witness for C10: the tunnel-row cell (0, 12) is empty and passable. -/
theorem c10_can_move_semantics_witness :
    ((0 : ℤ) ≤ 0 ∧ (0 : ℤ) < ((MAZE.headD []).length : ℤ) ∧ (0 : ℤ) ≤ 12 ∧
      (12 : ℤ) < (MAZE.length : ℤ) ∧ cell_at MAZE 0 12 = 0) ∧
      can_move 0 12 MAZE = true :=
  ⟨⟨by decide, by decide, by decide, by decide, by decide⟩,
    c10_can_move_semantics.2.1 MAZE 0 12 0 (by decide) (by decide) (by decide)
      (by decide) (by decide) (Or.inl rfl)⟩

/-! ### Collision and scoring engine (the Playing branch of `main`,
source lines 834-912)

The session variables of `main` that these blocks read or write. -/

structure Sess where
  score : ℤ
  lives : ℤ
  dots_eaten : ℕ
  power_timer : ℤ
  ghost_score : ℤ
  fruit_timer : ℤ
  fruit_active : Bool
deriving DecidableEq

/-- The power-pellet timer block (source lines 845-850): while positive the
timer counts down; on the tick it hits zero every ghost's frightened flag is
cleared and the chain value resets to 200. -/
def power_timer_block (s : Sess) (ghosts : List GhostSt) : Sess × List GhostSt :=
  if 0 < s.power_timer then
    let pt := s.power_timer - 1
    if pt = 0 then
      ({ s with power_timer := pt, ghost_score := 200 },
        ghosts.map fun g => { g with frightened := false })
    else
      ({ s with power_timer := pt }, ghosts)
  else
    (s, ghosts)

/-- The fruit timer block (source lines 852-861): activate on the 70th or
170th dot when not already active (setting the 600-tick budget), then while
active count the budget down, deactivating at zero. -/
def fruit_block (s : Sess) : Sess :=
  let s1 :=
    if (s.dots_eaten = 70 ∨ s.dots_eaten = 170) ∧ s.fruit_active = false then
      { s with fruit_active := true, fruit_timer := 600 }
    else s
  if s1.fruit_active then
    let t := s1.fruit_timer - 1
    if t ≤ 0 then { s1 with fruit_timer := t, fruit_active := false }
    else { s1 with fruit_timer := t }
  else s1

/-- Write of a single maze cell, `maze[y][x] = v`. -/
def set_cell (maze : List (List ℕ)) (x y : ℕ) (v : ℕ) : List (List ℕ) :=
  maze.set y ((maze.getD y []).set x v)

/-- The pellet-eating block (source lines 863-882): at the player's cell a
pellet scores 10 and counts a dot, a power pellet scores 50, arms the power
timer from the level's frightened duration, resets the chain value to 200 and
frightens every non-eaten ghost, and a fruit-spot cell scores the level's
fruit reward and clears the fruit-active flag while the fruit is active.
`frightened_time` and `fruit_value` come from `get_level_config`. -/
def pellet_block (maze : List (List ℕ)) (pac : PacSt) (frightened_time : ℤ)
    (fruit_value : ℤ) (s : Sess) (ghosts : List GhostSt) :
    List (List ℕ) × Sess × List GhostSt :=
  let x := pac.x
  let y := pac.y
  if 0 ≤ y ∧ y < (maze.length : ℤ) ∧ 0 ≤ x ∧ x < ((maze.headD []).length : ℤ) then
    let cell := cell_at maze x y
    if cell = 2 then
      (set_cell maze x.toNat y.toNat 0,
        { s with score := s.score + 10, dots_eaten := s.dots_eaten + 1 }, ghosts)
    else if cell = 3 then
      (set_cell maze x.toNat y.toNat 0,
        { s with score := s.score + 50, power_timer := frightened_time,
                 ghost_score := 200 },
        ghosts.map fun g => if g.eaten = false then { g with frightened := true } else g)
    else if cell = 5 ∧ s.fruit_active = true then
      (maze, { s with score := s.score + fruit_value, fruit_active := false }, ghosts)
    else
      (maze, s, ghosts)
  else
    (maze, s, ghosts)

/-- Loop body of the ghost-collision block (source lines 885-896) for one
ghost: on proximity (both coordinate deltas below half a cell) a frightened
ghost is eaten and scores the current chain value, which then doubles; a
pursuing (neither frightened nor eaten) ghost makes the tick fatal. -/
def collide_one (pac : PacSt) (acc : Sess × List GhostSt × Bool) (g : GhostSt) :
    Sess × List GhostSt × Bool :=
  let s := acc.1
  let gs := acc.2.1
  let dying := acc.2.2
  if |(g.x : ℚ) - (pac.x : ℚ)| < 1/2 ∧ |(g.y : ℚ) - (pac.y : ℚ)| < 1/2 then
    if g.frightened then
      ({ s with score := s.score + s.ghost_score, ghost_score := s.ghost_score * 2 },
        gs ++ [{ g with eaten := true, frightened := false }], dying)
    else if g.eaten = false then
      (s, gs ++ [g], true)
    else
      (s, gs ++ [g], dying)
  else
    (s, gs ++ [g], dying)

/-- The ghost-collision block (source lines 884-896): the `for ghost in
ghosts` loop, threading score, chain value and the transition-to-Dying flag. -/
def ghost_collision_block (s : Sess) (ghosts : List GhostSt) (pac : PacSt) :
    Sess × List GhostSt × Bool :=
  ghosts.foldl (collide_one pac) (s, [], false)

/-- The extra-life check (source lines 909-912), verbatim: it compares the
10000-bucket of the current score with the bucket of `score - 10` (Python `//`
is floor division, `Int.fdiv` here), granting a life when they differ. -/
def extra_life_block (s : Sess) : Sess :=
  if (s.score).fdiv 10000 > (s.score - 10).fdiv 10000 then
    { s with lives := s.lives + 1 }
  else s

/-- Claim C1 is a code bug: the check hardcodes a delta of 10 instead of the
tick's actual score delta.  At score 0 with no points scored this tick (no
boundary crossed) it still grants a life — and does so again every following
tick while the score stays 0; while a tick that jumps 9990 → 14990 by a
5000-point fruit (crossing the 10000 boundary once) grants none, because
14990 and 14980 sit in the same bucket even though 9990 does not. -/
theorem c1_extra_life_code_bug :
    (extra_life_block ⟨0, 3, 0, 0, 200, 0, false⟩).lives = 4 ∧
    (extra_life_block ⟨14990, 3, 0, 0, 200, 0, false⟩).lives = 3 ∧
    (14990 : ℤ).fdiv 10000 = 1 ∧ (9990 : ℤ).fdiv 10000 = 0 := by
  refine ⟨?_, ?_, by decide, by decide⟩ <;> decide

/-! ### Level configuration provider (source lines 182-244)

Decimal speed literals become the exact rationals they denote.  Fruit glyphs
are dropped (pure rendering data); each fruit entry keeps its reward value
and name. -/

def FRUITS : List (ℤ × String) :=
  [(100, "Cherry"), (300, "Strawberry"), (500, "Orange"), (500, "Orange"),
   (700, "Apple"), (700, "Apple"), (1000, "Melon"), (1000, "Melon"),
   (2000, "Galaxian"), (2000, "Galaxian"), (3000, "Bell"), (3000, "Bell"),
   (5000, "Key")]

structure LevelConfig where
  pac_speed : ℚ
  ghost_speed : ℚ
  frightened_time : ℤ
  fruit : ℤ × String
deriving DecidableEq

/-- The `configs` dict literal of `get_level_config` (lines 212-234);
`none` models a key miss, which the source's `.get` answers with the
level-21 entry. -/
def configs_dict (l : ℤ) : Option (ℚ × ℚ × ℤ) :=
  if l = 1 then some (15/100, 12/100, 360)
  else if l = 2 then some (16/100, 13/100, 300)
  else if l = 3 then some (16/100, 14/100, 240)
  else if l = 4 then some (17/100, 15/100, 180)
  else if l = 5 then some (17/100, 16/100, 150)
  else if l = 6 then some (18/100, 17/100, 120)
  else if l = 7 then some (18/100, 18/100, 120)
  else if l = 8 then some (19/100, 19/100, 90)
  else if l = 9 then some (19/100, 20/100, 60)
  else if l = 10 then some (20/100, 21/100, 60)
  else if l = 11 then some (20/100, 22/100, 50)
  else if l = 12 then some (21/100, 23/100, 40)
  else if l = 13 then some (21/100, 24/100, 40)
  else if l = 14 then some (22/100, 25/100, 30)
  else if l = 15 then some (22/100, 26/100, 30)
  else if l = 16 then some (23/100, 27/100, 20)
  else if l = 17 then some (23/100, 28/100, 20)
  else if l = 18 then some (24/100, 29/100, 10)
  else if l = 19 then some (24/100, 30/100, 10)
  else if l = 20 then some (25/100, 31/100, 5)
  else if l = 21 then some (25/100, 32/100, 0)
  else none

/-- Python list indexing `xs[i]`, including negative indices counting from
the end; `none` models `IndexError`. -/
def py_get {α : Type} (xs : List α) (i : ℤ) : Option α :=
  if 0 ≤ i then xs.get? i.toNat
  else if 0 ≤ i + (xs.length : ℤ) then xs.get? (i + (xs.length : ℤ)).toNat
  else none

/-- `get_level_config` (source lines 198-244): the level-256 kill-screen
override, the `min(level, 21)` cap, the dict lookup defaulting to the
level-21 entry, and the fruit pick `FRUITS[level - 1]` for `level <= 13`
else `FRUITS[-1]`.  `none` models the `IndexError` the fruit pick raises. -/
def get_level_config (level : ℤ) : Option LevelConfig :=
  if level = 256 then
    some ⟨5/100, 3/10, 10, (0, "KILL SCREEN")⟩
  else
    let l := min level 21
    let base := (configs_dict l).getD (25/100, 32/100, 0)
    let fr := if l ≤ 13 then py_get FRUITS (l - 1) else py_get FRUITS (-1)
    fr.map fun f => ⟨base.1, base.2.1, base.2.2, f⟩

/-- Player speed at a level, 0 when the lookup fails (statement helper). -/
def pac_speed_at (l : ℤ) : ℚ :=
  ((get_level_config l).map fun c => c.pac_speed).getD 0

/-- Adversary speed at a level, 0 when the lookup fails (statement helper). -/
def ghost_speed_at (l : ℤ) : ℚ :=
  ((get_level_config l).map fun c => c.ghost_speed).getD 0

/-- Frightened duration at a level, 0 when the lookup fails (statement
helper). -/
def frightened_at (l : ℤ) : ℤ :=
  ((get_level_config l).map fun c => c.frightened_time).getD 0

/-- Counterexample to claim C7: the level number -13 is unmapped, yet
`get_level_config` does not fall back to the capped configuration — the fruit
pick `FRUITS[-14]` raises `IndexError` (modelled as `none`), so the function
fails rather than returning level 21's parameters. -/
theorem c7_level_config_counterexample :
    get_level_config (-13) = none ∧ get_level_config 21 ≠ none := by
  constructor <;> decide

set_option maxHeartbeats 4000000 in
/-- Claim C7 as amended: `get_level_config` is a pure function of the level
number; every level at least 22 other than the terminal level 256 returns
exactly level 21's parameters; over levels 1..21 the player and adversary
speeds are non-decreasing and the frightened duration is non-increasing,
reaching zero at level 21; and the unmapped NON-NEGATIVE level 0 falls back
to the capped configuration — but negative level numbers are not handled
(Python's negative list indexing returns a wrong fruit entry for -1..-12 and
raises IndexError below that, as the counterexample shows). -/
theorem c7_level_config_amended :
    (∀ l : ℤ, 22 ≤ l → l ≠ 256 → get_level_config l = get_level_config 21) ∧
    (∀ l ∈ Finset.Icc (1 : ℤ) 20,
      pac_speed_at l ≤ pac_speed_at (l + 1) ∧
      ghost_speed_at l ≤ ghost_speed_at (l + 1) ∧
      frightened_at (l + 1) ≤ frightened_at l) ∧
    frightened_at 21 = 0 ∧
    get_level_config 0 = get_level_config 21 := by
  refine ⟨?_, ?_,
    by norm_num [frightened_at, get_level_config, configs_dict, py_get, FRUITS,
      min_def],
    by norm_num [get_level_config, configs_dict, py_get, FRUITS, min_def]⟩
  case refine_2 =>
    intro l hl
    rw [Finset.mem_Icc] at hl
    obtain ⟨hl1, hl2⟩ := hl
    interval_cases l <;>
      refine ⟨?_, ?_, ?_⟩ <;>
        norm_num [pac_speed_at, ghost_speed_at, frightened_at, get_level_config,
          configs_dict, py_get, FRUITS, min_def]
  intro l h22 h256
  have hmin : min l 21 = 21 := min_eq_right (by omega)
  simp only [get_level_config]
  rw [if_neg h256, if_neg (show ¬(21 : ℤ) = 256 by decide)]
  rw [hmin, min_self]

/-- Witness for C7 at the concrete unmapped level 22. -/
theorem c7_level_config_amended_witness :
    ((22 : ℤ) ≤ 22 ∧ (22 : ℤ) ≠ 256) ∧
      get_level_config 22 = get_level_config 21 :=
  ⟨⟨by decide, by decide⟩, c7_level_config_amended.1 22 (by decide) (by decide)⟩

/-! ### Chain scoring (claim C3) -/

lemma collide_frightened (s : Sess) (pac : PacSt) (g : GhostSt)
    (hf : g.frightened = true) (hx : g.x = pac.x) (hy : g.y = pac.y) :
    ghost_collision_block s [g] pac =
      ({ s with score := s.score + s.ghost_score,
                ghost_score := s.ghost_score * 2 },
        [{ g with eaten := true, frightened := false }], false) := by
  unfold ghost_collision_block
  simp [collide_one, hx, hy, hf]

/-- Claim C3: with the chain value at its base 200 (as set by a power
pellet), four consecutive captures of frightened adversaries at the player's
cell award score increments 200, 400, 800, 1600 in that order, each capture
marking the adversary eaten and no longer frightened, and leaving the chain
value at 3200; and consuming a power pellet resets the chain value to 200. -/
theorem c3_chain_scoring :
    (∀ (s : Sess) (pac : PacSt) (g1 g2 g3 g4 : GhostSt),
      s.ghost_score = 200 →
      g1.frightened = true → g1.x = pac.x → g1.y = pac.y →
      g2.frightened = true → g2.x = pac.x → g2.y = pac.y →
      g3.frightened = true → g3.x = pac.x → g3.y = pac.y →
      g4.frightened = true → g4.x = pac.x → g4.y = pac.y →
      (ghost_collision_block s [g1] pac).1.score = s.score + 200 ∧
      (ghost_collision_block s [g1] pac).2.1 =
        [{ g1 with eaten := true, frightened := false }] ∧
      (ghost_collision_block (ghost_collision_block s [g1] pac).1 [g2] pac).1.score =
        (ghost_collision_block s [g1] pac).1.score + 400 ∧
      (ghost_collision_block (ghost_collision_block
          (ghost_collision_block s [g1] pac).1 [g2] pac).1 [g3] pac).1.score =
        (ghost_collision_block (ghost_collision_block s [g1] pac).1 [g2] pac).1.score
          + 800 ∧
      (ghost_collision_block (ghost_collision_block (ghost_collision_block
          (ghost_collision_block s [g1] pac).1 [g2] pac).1 [g3] pac).1 [g4] pac).1.score =
        (ghost_collision_block (ghost_collision_block
          (ghost_collision_block s [g1] pac).1 [g2] pac).1 [g3] pac).1.score + 1600 ∧
      (ghost_collision_block (ghost_collision_block (ghost_collision_block
          (ghost_collision_block s [g1] pac).1 [g2] pac).1 [g3] pac).1 [g4] pac).1.ghost_score
        = 3200) ∧
    (∀ (maze : List (List ℕ)) (pac : PacSt) (ft fv : ℤ) (s : Sess)
       (ghosts : List GhostSt),
      0 ≤ pac.y → pac.y < (maze.length : ℤ) →
      0 ≤ pac.x → pac.x < ((maze.headD []).length : ℤ) →
      cell_at maze pac.x pac.y = 3 →
      (pellet_block maze pac ft fv s ghosts).2.1.ghost_score = 200 ∧
      (pellet_block maze pac ft fv s ghosts).2.1.power_timer = ft) := by
  constructor
  · intro s pac g1 g2 g3 g4 hg h1f h1x h1y h2f h2x h2y h3f h3x h3y h4f h4x h4y
    rw [collide_frightened s pac g1 h1f h1x h1y]
    rw [collide_frightened _ pac g2 h2f h2x h2y]
    rw [collide_frightened _ pac g3 h3f h3x h3y]
    rw [collide_frightened _ pac g4 h4f h4x h4y]
    refine ⟨by simp [hg], rfl, by simp [hg], by simp [hg], by simp [hg], by simp [hg]⟩
  · intro maze pac ft fv s ghosts hy0 hy1 hx0 hx1 hcell
    unfold pellet_block
    rw [if_pos ⟨hy0, hy1, hx0, hx1⟩]
    rw [if_neg (by omega : ¬cell_at maze pac.x pac.y = 2)]
    rw [if_pos hcell]
    exact ⟨rfl, rfl⟩

/-- Witness for C3: a concrete session with the chain at 200 and four
frightened ghosts parked on the player. -/
theorem c3_chain_scoring_witness :
    ((⟨0, 3, 0, 360, 200, 0, false⟩ : Sess).ghost_score = 200 ∧
      (⟨14, 20, 0, -1, .chaser, true, false⟩ : GhostSt).frightened = true) ∧
    (ghost_collision_block ⟨0, 3, 0, 360, 200, 0, false⟩
      [⟨14, 20, 0, -1, .chaser, true, false⟩] ⟨14, 20, 0, 0⟩).1.score =
        (⟨0, 3, 0, 360, 200, 0, false⟩ : Sess).score + 200 :=
  ⟨⟨by decide, by decide⟩,
    (c3_chain_scoring.1 ⟨0, 3, 0, 360, 200, 0, false⟩ ⟨14, 20, 0, 0⟩
      ⟨14, 20, 0, -1, .chaser, true, false⟩ ⟨14, 20, 0, -1, .ambusher, true, false⟩
      ⟨14, 20, 0, -1, .fickle, true, false⟩ ⟨14, 20, 0, -1, .pokey, true, false⟩
      (by decide) (by decide) (by decide) (by decide) (by decide) (by decide)
      (by decide) (by decide) (by decide) (by decide) (by decide) (by decide)
      (by decide)).1⟩

/-! ### Frightened-mode termination (claim C5) -/

/-- Iteration of the power-pellet timer block over successive Playing ticks. -/
def iter_power_timer : ℕ → Sess × List GhostSt → Sess × List GhostSt
  | 0, st => st
  | n + 1, st => iter_power_timer n (power_timer_block st.1 st.2)

set_option maxRecDepth 8000 in
/-- Claim C5 is a code bug at frightened duration 0: level 21's configured
frightened duration is 0, so eating a power pellet there sets the power timer
to 0 while still frightening every non-eaten ghost — and because the timer
block only acts while the timer is positive, the timer never "reaches zero"
by decrementing and the ghost stays frightened on every later tick (here 120
of them), instead of reverting to pursuit immediately as the spec requires. -/
theorem c5_frightened_never_ends :
    frightened_at 21 = 0 ∧
    ((pellet_block [[3]] ⟨0, 0, 0, 0⟩ 0 100 ⟨0, 3, 0, 0, 200, 0, false⟩
        [⟨13, 11, 0, -1, .chaser, false, false⟩]).2.2.map fun g => g.frightened) =
      [true] ∧
    (pellet_block [[3]] ⟨0, 0, 0, 0⟩ 0 100 ⟨0, 3, 0, 0, 200, 0, false⟩
        [⟨13, 11, 0, -1, .chaser, false, false⟩]).2.1.power_timer = 0 ∧
    ((iter_power_timer 120
        ((pellet_block [[3]] ⟨0, 0, 0, 0⟩ 0 100 ⟨0, 3, 0, 0, 200, 0, false⟩
          [⟨13, 11, 0, -1, .chaser, false, false⟩]).2.1,
         (pellet_block [[3]] ⟨0, 0, 0, 0⟩ 0 100 ⟨0, 3, 0, 0, 200, 0, false⟩
          [⟨13, 11, 0, -1, .chaser, false, false⟩]).2.2)).2.map
      fun g => g.frightened) = [true] := by
  refine ⟨by norm_num [frightened_at, get_level_config, configs_dict, py_get,
      FRUITS, min_def], ?_, ?_, ?_⟩ <;> decide

/-! ### Fruit activation (claim C6) -/

/-- Iteration of the fruit timer block over successive Playing ticks. -/
def iter_fruit : ℕ → Sess → Sess
  | 0, s => s
  | n + 1, s => iter_fruit n (fruit_block s)

/-- Counterexample to claim C6: with 70 dots eaten and the fruit active, the
player consumes the fruit (clearing the active flag, dots unchanged), and on
the very next tick the fruit re-activates with a fresh 600-tick budget — so a
deactivated fruit DOES re-activate while the dots-eaten counter still equals
the same threshold, and a level can see more than two activations. -/
theorem c6_fruit_counterexample :
    (pellet_block [[5]] ⟨0, 0, 0, 0⟩ 360 100 ⟨0, 3, 70, 0, 200, 500, true⟩
      []).2.1.fruit_active = false ∧
    (fruit_block (pellet_block [[5]] ⟨0, 0, 0, 0⟩ 360 100
      ⟨0, 3, 70, 0, 200, 500, true⟩ []).2.1).fruit_active = true ∧
    (fruit_block (pellet_block [[5]] ⟨0, 0, 0, 0⟩ 360 100
      ⟨0, 3, 70, 0, 200, 500, true⟩ []).2.1).fruit_timer = 599 := by
  refine ⟨?_, ?_, ?_⟩ <;> decide

lemma fruit_block_off_inactive (s : Sess) (h70 : s.dots_eaten ≠ 70)
    (h170 : s.dots_eaten ≠ 170) (ha : s.fruit_active = false) :
    fruit_block s = s := by
  unfold fruit_block
  simp [h70, h170, ha]

lemma iter_fruit_off_inactive :
    ∀ (n : ℕ) (s : Sess), s.dots_eaten ≠ 70 → s.dots_eaten ≠ 170 →
      s.fruit_active = false → iter_fruit n s = s := by
  intro n
  induction n with
  | zero => intro s _ _ _; rfl
  | succ k ih =>
    intro s h70 h170 ha
    show iter_fruit k (fruit_block s) = s
    rw [fruit_block_off_inactive s h70 h170 ha]
    exact ih s h70 h170 ha

lemma fruit_block_off_active (s : Sess) (h70 : s.dots_eaten ≠ 70)
    (h170 : s.dots_eaten ≠ 170) (ha : s.fruit_active = true) :
    fruit_block s =
      if s.fruit_timer - 1 ≤ 0 then
        { s with fruit_timer := s.fruit_timer - 1, fruit_active := false }
      else { s with fruit_timer := s.fruit_timer - 1 } := by
  unfold fruit_block
  simp [h70, h170, ha]

/-- Claim C6 as amended: the fruit activates on any Playing tick on which the
dots-eaten counter equals 70 or 170 and the fruit is not active (599 ticks of
budget remain after the activation tick); with the counter off those
thresholds it then stays active for exactly the remaining budget, after which
it deactivates and stays inactive; and consuming the fruit-spot cell while
active awards the fruit value and clears only the active flag.  (Unlike the
claim, a deactivated fruit re-activates whenever the counter still sits at a
threshold, as the counterexample shows, so neither "at most twice per level"
nor "no re-activation at the same threshold" holds.) -/
theorem c6_fruit_amended :
    (∀ s : Sess, (s.dots_eaten = 70 ∨ s.dots_eaten = 170) →
      s.fruit_active = false →
      (fruit_block s).fruit_active = true ∧ (fruit_block s).fruit_timer = 599) ∧
    (∀ (s : Sess) (n : ℕ), s.fruit_active = true → s.dots_eaten ≠ 70 →
      s.dots_eaten ≠ 170 → 0 < s.fruit_timer →
      ((iter_fruit n s).fruit_active = true ↔ (n : ℤ) < s.fruit_timer)) ∧
    (∀ (maze : List (List ℕ)) (pac : PacSt) (ft fv : ℤ) (s : Sess)
       (ghosts : List GhostSt),
      0 ≤ pac.y → pac.y < (maze.length : ℤ) →
      0 ≤ pac.x → pac.x < ((maze.headD []).length : ℤ) →
      cell_at maze pac.x pac.y = 5 → s.fruit_active = true →
      (pellet_block maze pac ft fv s ghosts).2.1.fruit_active = false ∧
      (pellet_block maze pac ft fv s ghosts).2.1.score = s.score + fv ∧
      (pellet_block maze pac ft fv s ghosts).1 = maze) := by
  refine ⟨?_, ?_, ?_⟩
  · intro s hd ha
    unfold fruit_block
    have : (s.dots_eaten = 70 ∨ s.dots_eaten = 170) ∧ s.fruit_active = false :=
      ⟨hd, ha⟩
    rw [if_pos this]
    norm_num
  · intro s n
    induction n generalizing s with
    | zero =>
      intro ha _ _ ht
      simpa [iter_fruit, ha] using ht
    | succ k ih =>
      intro ha h70 h170 ht
      by_cases hz : s.fruit_timer - 1 ≤ 0
      · have hstep : fruit_block s =
            { s with fruit_timer := s.fruit_timer - 1, fruit_active := false } := by
          rw [fruit_block_off_active s h70 h170 ha, if_pos hz]
        show ((iter_fruit k (fruit_block s)).fruit_active = true ↔ _)
        rw [hstep, iter_fruit_off_inactive k
          { s with fruit_timer := s.fruit_timer - 1, fruit_active := false }
          h70 h170 rfl]
        refine iff_of_false (by simp) ?_
        push_cast
        omega
      · have hstep : fruit_block s =
            { s with fruit_timer := s.fruit_timer - 1 } := by
          rw [fruit_block_off_active s h70 h170 ha, if_neg hz]
        show ((iter_fruit k (fruit_block s)).fruit_active = true ↔ _)
        rw [hstep, ih { s with fruit_timer := s.fruit_timer - 1 } ha h70 h170
          (by omega : (0 : ℤ) < s.fruit_timer - 1)]
        show (k : ℤ) < s.fruit_timer - 1 ↔ _
        push_cast
        omega
  · intro maze pac ft fv s ghosts hy0 hy1 hx0 hx1 hcell ha
    unfold pellet_block
    rw [if_pos ⟨hy0, hy1, hx0, hx1⟩]
    rw [if_neg (by omega : ¬cell_at maze pac.x pac.y = 2)]
    rw [if_neg (by omega : ¬cell_at maze pac.x pac.y = 3)]
    rw [if_pos ⟨hcell, ha⟩]
    exact ⟨rfl, rfl, rfl⟩

/-- Witness for C6 at a concrete just-consumed state sitting on the 70-dot
threshold. -/
theorem c6_fruit_amended_witness :
    (((⟨0, 3, 70, 0, 200, 499, false⟩ : Sess).dots_eaten = 70 ∨
        (⟨0, 3, 70, 0, 200, 499, false⟩ : Sess).dots_eaten = 170) ∧
      (⟨0, 3, 70, 0, 200, 499, false⟩ : Sess).fruit_active = false) ∧
    (fruit_block ⟨0, 3, 70, 0, 200, 499, false⟩).fruit_active = true ∧
    (fruit_block ⟨0, 3, 70, 0, 200, 499, false⟩).fruit_timer = 599 :=
  ⟨⟨Or.inl (by decide), by decide⟩,
    c6_fruit_amended.1 ⟨0, 3, 70, 0, 200, 499, false⟩ (Or.inl (by decide))
      (by decide)⟩

/-! ### Maze mutation invariant (claim C9) -/

/-- Counterexample to claim C9: the player sits on the single fruit-spot cell
with the fruit active; the consumption branch (source lines 879-882) awards
the fruit value and clears the active flag but writes nothing to the maze, so
the FRUIT_SPOT cell stays 5 instead of becoming EMPTY as the claim states. -/
theorem c9_maze_mutation_counterexample :
    (pellet_block [[5]] ⟨0, 0, 0, 0⟩ 360 100 ⟨0, 3, 70, 0, 200, 500, true⟩
      []).2.1.fruit_active = false ∧
    (pellet_block [[5]] ⟨0, 0, 0, 0⟩ 360 100 ⟨0, 3, 70, 0, 200, 500, true⟩
      []).2.1.score = 100 ∧
    (pellet_block [[5]] ⟨0, 0, 0, 0⟩ 360 100 ⟨0, 3, 70, 0, 200, 500, true⟩
      []).1 = [[5]] ∧
    cell_at (pellet_block [[5]] ⟨0, 0, 0, 0⟩ 360 100
      ⟨0, 3, 70, 0, 200, 500, true⟩ []).1 0 0 ≠ 0 := by
  refine ⟨?_, ?_, ?_, ?_⟩ <;> decide

lemma getD_set {α : Type} :
    ∀ (l : List α) (n m : ℕ) (v d : α),
      (l.set n v).getD m d = if m = n ∧ n < l.length then v else l.getD m d := by
  intro l
  induction l with
  | nil => intro n m v d; simp
  | cons a t ih =>
    intro n m v d
    cases n with
    | zero =>
      cases m with
      | zero => simp
      | succ m' => simp
    | succ n' =>
      cases m with
      | zero => simp
      | succ m' =>
        simp only [List.set_cons_succ, List.getD_cons_succ, List.length_cons]
        rw [ih n' m' v d]
        by_cases h : m' = n' ∧ n' < t.length
        · rw [if_pos h, if_pos (by omega)]
        · rw [if_neg h, if_neg (by omega)]

lemma cell_at_set_cell (maze : List (List ℕ)) (x y : ℕ) (v : ℕ) (i j : ℤ) :
    cell_at (set_cell maze x y v) i j =
      if j.toNat = y ∧ y < maze.length ∧ i.toNat = x ∧
          x < (maze.getD y []).length then v
      else cell_at maze i j := by
  unfold cell_at set_cell
  rw [getD_set]
  by_cases hrow : j.toNat = y ∧ y < maze.length
  · rw [if_pos hrow]
    rw [getD_set]
    by_cases hcol : i.toNat = x ∧ x < (maze.getD y []).length
    · rw [if_pos hcol, if_pos ⟨hrow.1, hrow.2, hcol.1, hcol.2⟩]
    · rw [if_neg hcol, if_neg (by tauto), hrow.1]
  · rw [if_neg hrow, if_neg (by tauto)]

/-- Claim C9 as amended: within a level the Playing tick writes the maze only
through the pellet-eating block, and that block changes at most the cell
under the player, and only a PELLET (2) or POWER_PELLET (3) cell, which
becomes EMPTY (0) — so walls, doors and fruit spots are immutable; consuming
the fruit awards its value and clears only the fruit-active flag, leaving the
FRUIT_SPOT cell (and the whole maze) unchanged, NOT setting it to EMPTY as
the claim states. -/
theorem c9_maze_mutation_amended :
    (∀ (maze : List (List ℕ)) (pac : PacSt) (ft fv : ℤ) (s : Sess)
       (ghosts : List GhostSt) (i j : ℤ),
      cell_at (pellet_block maze pac ft fv s ghosts).1 i j = cell_at maze i j ∨
      (cell_at maze i j = 2 ∧
        cell_at (pellet_block maze pac ft fv s ghosts).1 i j = 0) ∨
      (cell_at maze i j = 3 ∧
        cell_at (pellet_block maze pac ft fv s ghosts).1 i j = 0)) ∧
    (∀ (maze : List (List ℕ)) (pac : PacSt) (ft fv : ℤ) (s : Sess)
       (ghosts : List GhostSt),
      0 ≤ pac.y → pac.y < (maze.length : ℤ) →
      0 ≤ pac.x → pac.x < ((maze.headD []).length : ℤ) →
      cell_at maze pac.x pac.y = 5 → s.fruit_active = true →
      (pellet_block maze pac ft fv s ghosts).1 = maze ∧
      (pellet_block maze pac ft fv s ghosts).2.1.fruit_active = false) := by
  constructor
  · intro maze pac ft fv s ghosts i j
    unfold pellet_block
    by_cases hb : 0 ≤ pac.y ∧ pac.y < (maze.length : ℤ) ∧ 0 ≤ pac.x ∧
        pac.x < ((maze.headD []).length : ℤ)
    case neg => rw [if_neg hb]; exact Or.inl rfl
    rw [if_pos hb]
    by_cases h2 : cell_at maze pac.x pac.y = 2
    case pos =>
      rw [if_pos h2]
      show cell_at (set_cell maze pac.x.toNat pac.y.toNat 0) i j = _ ∨ _
      rw [cell_at_set_cell]
      by_cases hit : j.toNat = pac.y.toNat ∧ pac.y.toNat < maze.length ∧
          i.toNat = pac.x.toNat ∧ pac.x.toNat < (maze.getD pac.y.toNat []).length
      · rw [if_pos hit]
        refine Or.inr (Or.inl ⟨?_, rfl⟩)
        rw [← h2]
        unfold cell_at
        rw [hit.1, hit.2.2.1]
      · rw [if_neg hit]; exact Or.inl rfl
    rw [if_neg h2]
    by_cases h3 : cell_at maze pac.x pac.y = 3
    case pos =>
      rw [if_pos h3]
      show cell_at (set_cell maze pac.x.toNat pac.y.toNat 0) i j = _ ∨ _
      rw [cell_at_set_cell]
      by_cases hit : j.toNat = pac.y.toNat ∧ pac.y.toNat < maze.length ∧
          i.toNat = pac.x.toNat ∧ pac.x.toNat < (maze.getD pac.y.toNat []).length
      · rw [if_pos hit]
        refine Or.inr (Or.inr ⟨?_, rfl⟩)
        rw [← h3]
        unfold cell_at
        rw [hit.1, hit.2.2.1]
      · rw [if_neg hit]; exact Or.inl rfl
    rw [if_neg h3]
    by_cases h5 : cell_at maze pac.x pac.y = 5 ∧ s.fruit_active = true
    · rw [if_pos h5]; exact Or.inl rfl
    · rw [if_neg h5]; exact Or.inl rfl
  · intro maze pac ft fv s ghosts hy0 hy1 hx0 hx1 hcell ha
    unfold pellet_block
    rw [if_pos ⟨hy0, hy1, hx0, hx1⟩]
    rw [if_neg (by omega : ¬cell_at maze pac.x pac.y = 2)]
    rw [if_neg (by omega : ¬cell_at maze pac.x pac.y = 3)]
    rw [if_pos ⟨hcell, ha⟩]
    exact ⟨rfl, rfl⟩

/-- Witness for C9 at the real maze's fruit-spot cell (13, 15) with the fruit
active: the maze is unchanged and only the active flag clears. -/
theorem c9_maze_mutation_amended_witness :
    ((0 : ℤ) ≤ 15 ∧ (15 : ℤ) < (MAZE.length : ℤ) ∧ (0 : ℤ) ≤ 13 ∧
      (13 : ℤ) < ((MAZE.headD []).length : ℤ) ∧ cell_at MAZE 13 15 = 5 ∧
      (⟨0, 3, 70, 0, 200, 500, true⟩ : Sess).fruit_active = true) ∧
    (pellet_block MAZE ⟨13, 15, 1, 0⟩ 360 100 ⟨0, 3, 70, 0, 200, 500, true⟩
      []).1 = MAZE ∧
    (pellet_block MAZE ⟨13, 15, 1, 0⟩ 360 100 ⟨0, 3, 70, 0, 200, 500, true⟩
      []).2.1.fruit_active = false :=
  ⟨⟨by decide, by decide, by decide, by decide, by decide, by decide⟩,
    c9_maze_mutation_amended.2 MAZE ⟨13, 15, 1, 0⟩ 360 100
      ⟨0, 3, 70, 0, 200, 500, true⟩ [] (by decide) (by decide) (by decide)
      (by decide) (by decide) (by decide)⟩

end Pacman4k
